import Mathlib

/-!
Verification of `lastplayed`, a small Flask service with two handlers:
`app.healthcheck.healthcheck.route` and `app.songs.latest_songs.route`.

The latest-song handler is embedded as a pure function.  Its inputs are the
three points where it reads the outside world:
  * `api_key`  — `os.environ.get('LASTFM_API_KEY')`, an `Option String`;
  * `upstream` — the combined outcome of `requests.get(...)` and `req.json()`:
                 `.error ()` models any raised exception (network error,
                 timeout, JSON decode failure), `.ok (status, body)` a
                 decoded JSON body together with `req.status_code`;
  * `fmt`      — `request.args.get('format')`, an `Option String`.
JSON values are an inductive `Json`; the Python operations the handler uses
(`dict.get`, the `in` operator, subscripting, truthiness, `int()`, str
interpolation) are modelled on `Json`, each raising via `Except Unit`.
The result of the handler is the `(jsonify body, status)` pair, paired with
a `Bool` recording whether the outbound `requests.get` call was made.
-/

namespace LastPlayed

/-- JSON values as decoded by `req.json()` (numbers restricted to integers,
which covers every value this service touches). -/
inductive Json where
  | null
  | bool (b : Bool)
  | num (n : Int)
  | str (s : String)
  | arr (elems : List Json)
  | obj (fields : List (String × Json))

mutual

/-- Python `==` between decoded JSON values.  `bool` is an int subtype, so
`True == 1`; lists compare elementwise.  Dicts compare as their ordered
field lists — an approximation of Python's unordered dict equality, never
exercised by the handler (its only equality is the membership test
`'track' in ...`, whose needle is a string). -/
def pyEq : Json → Json → Bool
  | .null, .null => true
  | .bool a, .bool b => a == b
  | .bool a, .num b => (if a then (1 : Int) else 0) == b
  | .num a, .bool b => a == (if b then (1 : Int) else 0)
  | .num a, .num b => a == b
  | .str a, .str b => a == b
  | .arr a, .arr b => pyEqList a b
  | .obj a, .obj b => pyEqFields a b
  | _, _ => false

def pyEqList : List Json → List Json → Bool
  | [], [] => true
  | x :: xs, y :: ys => pyEq x y && pyEqList xs ys
  | _, _ => false

def pyEqFields : List (String × Json) → List (String × Json) → Bool
  | [], [] => true
  | (k, v) :: xs, (k', v') :: ys => k == k' && pyEq v v' && pyEqFields xs ys
  | _, _ => false

end

/-- Python truthiness (`bool(v)`) of a decoded JSON value. -/
def pyTruthy : Json → Bool
  | .null => false
  | .bool b => b
  | .num n => n != 0
  | .str s => s != ""
  | .arr xs => !xs.isEmpty
  | .obj kvs => !kvs.isEmpty

/-- Python substring test `sub in s` on strings (the empty needle is a
member of every string). -/
def strContainsSub (s sub : String) : Bool :=
  decide (sub = "") || decide (2 ≤ (s.splitOn sub).length)

/-- Python `needle in container`.  On a dict this is key membership (all
dicts in this program have string keys, so a non-string needle is simply
absent); on a list, element membership; on a string, substring test with a
string needle and `TypeError` otherwise; on other values, `TypeError`. -/
def pyContains (needle container : Json) : Except Unit Bool :=
  match container with
  | .obj kvs =>
    .ok (match needle with
         | .str s => (List.lookup s kvs).isSome
         | _ => false)
  | .arr xs => .ok (xs.any (pyEq needle))
  | .str s =>
    match needle with
    | .str sub => .ok (strContainsSub s sub)
    | _ => .error ()
  | _ => .error ()

/-- Python subscripting `container[key]`: dict lookup (`KeyError` when the
key is absent — including non-string keys, since every dict here is
string-keyed), list indexing with Python's negative-index rule and
`IndexError` out of range (a `bool` index is the int 0 or 1), string
indexing yielding a one-character string, and `TypeError` otherwise. -/
def pyIndex (container key : Json) : Except Unit Json :=
  match container, key with
  | .obj kvs, .str s =>
    match List.lookup s kvs with
    | some v => .ok v
    | none => .error ()
  | .obj _, _ => .error ()
  | .arr xs, .num i =>
    let j : Int := if i < 0 then (xs.length : Int) + i else i
    if j < 0 then .error ()
    else
      match xs.get? j.toNat with
      | some v => .ok v
      | none => .error ()
  | .arr xs, .bool b =>
    match xs.get? (if b then 1 else 0) with
    | some v => .ok v
    | none => .error ()
  | .str s, .num i =>
    let j : Int := if i < 0 then (s.length : Int) + i else i
    if j < 0 then .error ()
    else
      match s.data.get? j.toNat with
      | some c => .ok (.str (String.singleton c))
      | none => .error ()
  | _, _ => .error ()

/-- Python `d.get(k, default)`: on a dict, the value at `k` or the default;
on any other value `.get` is an `AttributeError`. -/
def pyGet (d : Json) (k : String) (default : Json) : Except Unit Json :=
  match d with
  | .obj kvs => .ok ((List.lookup k kvs).getD default)
  | _ => .error ()

/-- Key update on an association list with dict semantics: an existing key
is overwritten in place, a new key is appended (insertion order). -/
def setKey : List (String × Json) → String → Json → List (String × Json)
  | [], k, v => [(k, v)]
  | (k', v') :: rest, k, v =>
    if k' = k then (k, v) :: rest else (k', v') :: setKey rest k v

/-- Python `d[k] = v` with a string key: dict update; on any other value a
`TypeError` (unreached in the handler: the target was already used as a
dict by the time it is assigned to). -/
def pySetItem (d : Json) (k : String) (v : Json) : Except Unit Json :=
  match d with
  | .obj kvs => .ok (.obj (setKey kvs k v))
  | _ => .error ()

/-- Value of a nonempty run of decimal digits, `none` on a non-digit. -/
def digitsVal : List Char → Nat → Option Nat
  | [], acc => some acc
  | c :: cs, acc =>
    if c.isDigit then digitsVal cs (acc * 10 + (c.toNat - 48)) else none

/-- ASCII whitespace as stripped by Python's `int()`. -/
def isPySpace (c : Char) : Bool :=
  c == ' ' || c == '\t' || c == '\n' || c == '\r' || c == '\x0b' || c == '\x0c'

/-- Strip leading and trailing whitespace from a character list. -/
def pyStrip (cs : List Char) : List Char :=
  ((cs.dropWhile isPySpace).reverse.dropWhile isPySpace).reverse

/-- Python `int(s)` on a string: surrounding whitespace is stripped, an
optional sign precedes a nonempty run of decimal digits; anything else is
a `ValueError`.  (Underscore digit grouping is not modelled; no value in
this service contains one.) -/
def pyIntOfStr (s : String) : Except Unit Int :=
  match pyStrip s.data with
  | [] => .error ()
  | '-' :: rest =>
    if rest.isEmpty then .error ()
    else
      match digitsVal rest 0 with
      | some n => .ok (-(n : Int))
      | none => .error ()
  | '+' :: rest =>
    if rest.isEmpty then .error ()
    else
      match digitsVal rest 0 with
      | some n => .ok (n : Int)
      | none => .error ()
  | cs =>
    match digitsVal cs 0 with
    | some n => .ok (n : Int)
    | none => .error ()

/-- Python `int(v)` on a decoded JSON value: ints pass through, bools are
0 or 1, strings are parsed, everything else is a `TypeError`. -/
def pyInt : Json → Except Unit Int
  | .num n => .ok n
  | .bool b => .ok (if b then 1 else 0)
  | .str s => pyIntOfStr s
  | _ => .error ()

mutual

/-- Python `repr()` of a decoded JSON value (string escaping inside reprs
is not reproduced; the handler only ever interpolates plain strings). -/
def pyRepr : Json → String
  | .null => "None"
  | .bool b => if b then "True" else "False"
  | .num n => toString n
  | .str s => "'" ++ s ++ "'"
  | .arr xs => "[" ++ String.intercalate ", " (pyReprList xs) ++ "]"
  | .obj kvs => "\x7b" ++ String.intercalate ", " (pyReprFields kvs) ++ "\x7d"

def pyReprList : List Json → List String
  | [] => []
  | x :: xs => pyRepr x :: pyReprList xs

def pyReprFields : List (String × Json) → List String
  | [] => []
  | (k, v) :: kvs => ("'" ++ k ++ "': " ++ pyRepr v) :: pyReprFields kvs

end

/-- Python `str(v)` as used by f-string interpolation. -/
def pyStrOf : Json → String
  | .str s => s
  | v => pyRepr v

/-- `jsonify({"message": s})` body. -/
def jmsg (s : String) : Json :=
  Json.obj [("message", Json.str s)]

/-- Lines 26–27 of `latest_songs.py`:
`track_date = track.get('date', {}).get('uts')` and
`track['date_uts'] = int(track_date) if track_date else None`. -/
def addDateUts (track : Json) : Except Unit Json :=
  match pyGet track "date" (Json.obj []) with
  | .error e => .error e
  | .ok dateObj =>
    match pyGet dateObj "uts" Json.null with
    | .error e => .error e
    | .ok track_date =>
      if pyTruthy track_date then
        match pyInt track_date with
        | .error e => .error e
        | .ok n => pySetItem track "date_uts" (Json.num n)
      else
        pySetItem track "date_uts" Json.null

/-- The body of the `try` block of `latest_songs.route` after `req.json()`
succeeded (lines 19–36), with `status` standing for `req.status_code`,
`lastfm_response` for the decoded body and `fmt` for
`request.args.get('format')`.  `.error ()` is a raised exception; an `.ok`
result is the `(jsonify body, status)` pair returned. -/
def tryBody (status : Nat) (lastfm_response : Json) (fmt : Option String) :
    Except Unit (Json × Nat) :=
  match pyGet lastfm_response "recenttracks" (Json.obj []) with
  | .error e => .error e
  | .ok recent_tracks =>
    match pyContains (Json.str "track") recent_tracks with
    | .error e => .error e
    | .ok hasTrack =>
      if !hasTrack then .ok (jmsg "NO_TRACKS_FOUND", 200)
      else
        match pyIndex recent_tracks (Json.str "track") with
        | .error e => .error e
        | .ok tracks =>
          if !pyTruthy tracks then .ok (jmsg "NO_TRACKS_FOUND", 200)
          else
            match pyIndex tracks (Json.num 0) with
            | .error e => .error e
            | .ok track0 =>
              match addDateUts track0 with
              | .error e => .error e
              | .ok track =>
                if fmt = some "shields.io" then
                  match pyIndex track (Json.str "name") with
                  | .error e => .error e
                  | .ok trackName =>
                    match pyIndex track (Json.str "artist") with
                    | .error e => .error e
                    | .ok artist =>
                      match pyIndex artist (Json.str "#text") with
                      | .error e => .error e
                      | .ok artistText =>
                        .ok (Json.obj
                          [("schemaVersion", Json.num 1),
                           ("label", Json.str "Last.FM Last Played Song"),
                           ("message", Json.str
                             (pyStrOf trackName ++ " - " ++ pyStrOf artistText))],
                          200)
                else
                  .ok (Json.obj [("track", track)], status)

/-- Truthiness of `api_key = os.environ.get('LASTFM_API_KEY')`: the guard
`if not api_key` fires when the variable is absent or empty. -/
def keyTruthy : Option String → Bool
  | none => false
  | some s => s != ""

/-- `latest_songs.route`.  Result: the `(jsonify body, status)` response
paired with a `Bool` recording whether the outbound `requests.get` call was
made.  `upstream` is the outcome of `requests.get` plus `req.json()`:
`.error ()` any raised exception, `.ok (status, body)` a decoded body with
its HTTP status code. -/
def route (api_key : Option String) (upstream : Except Unit (Nat × Json))
    (fmt : Option String) : (Json × Nat) × Bool :=
  if !keyTruthy api_key then ((jmsg "INTERNAL_ERROR", 500), false)
  else
    match upstream with
    | .error _ => ((jmsg "INTERNAL_ERROR", 500), true)
    | .ok (status, body) =>
      match tryBody status body fmt with
      | .error _ => ((jmsg "INTERNAL_ERROR", 500), true)
      | .ok resp => (resp, true)

/-- `healthcheck.route`: the `(jsonify body, status)` response (Flask's
default status for a bare `jsonify` return is 200) paired with the log
lines emitted. -/
def healthcheck_route : (Json × Nat) × List String :=
  ((Json.obj [("message", Json.str "type shit")], 200),
   ["Healthcheck was requested"])

/-- Whether a decoded JSON value is an object (a Python dict). -/
def isObj : Json → Bool
  | .obj _ => true
  | _ => false

/-- A concrete upstream track used to exercise the non-badge success path. -/
def exampleTrack : Json :=
  Json.obj [("name", Json.str "Song"),
            ("artist", Json.obj [("#text", Json.str "Band")]),
            ("date", Json.obj [("uts", Json.str "1700000000")])]

/-- `exampleTrack` after the handler's normalization step. -/
def exampleTrackNorm : Json :=
  Json.obj [("name", Json.str "Song"),
            ("artist", Json.obj [("#text", Json.str "Band")]),
            ("date", Json.obj [("uts", Json.str "1700000000")]),
            ("date_uts", Json.num 1700000000)]

/-- A concrete upstream body carrying `exampleTrack` as the only track. -/
def exampleBody : Json :=
  Json.obj [("recenttracks", Json.obj [("track", Json.arr [exampleTrack])])]

theorem lookup_setKey_self (kvs : List (String × Json)) (k : String) (v : Json) :
    List.lookup k (setKey kvs k v) = some v := by
  induction kvs with
  | nil => simp [setKey, List.lookup]
  | cons p rest ih =>
    obtain ⟨k', v'⟩ := p
    by_cases hk : k' = k
    · subst hk
      simp [setKey, List.lookup]
    · have hb : (k == k') = false := beq_eq_false_iff_ne.mpr (Ne.symm hk)
      simp [setKey, hk, List.lookup, hb, ih]

theorem lookup_setKey_ne (kvs : List (String × Json)) (k : String) (v : Json)
    (key : String) (hkey : key ≠ k) :
    List.lookup key (setKey kvs k v) = List.lookup key kvs := by
  have hbk : (key == k) = false := beq_eq_false_iff_ne.mpr hkey
  induction kvs with
  | nil => simp [setKey, List.lookup, hbk]
  | cons p rest ih =>
    obtain ⟨k', v'⟩ := p
    by_cases hk : k' = k
    · subst hk
      simp [setKey, List.lookup, hbk]
    · by_cases hx : key = k'
      · subst hx
        have hb : (key == key) = true := beq_iff_eq.mpr rfl
        simp [setKey, hk, List.lookup, hb]
      · have hb : (key == k') = false := beq_eq_false_iff_ne.mpr hx
        simp [setKey, hk, List.lookup, hb, ih]

/-- A successful normalization of a dict track is exactly a `date_uts`
update of its field list. -/
theorem addDateUts_obj (kvs : List (String × Json)) (track : Json)
    (h : addDateUts (Json.obj kvs) = .ok track) :
    ∃ v, track = Json.obj (setKey kvs "date_uts" v) := by
  unfold addDateUts pyGet at h
  simp only [] at h
  rcases hdo : (List.lookup "date" kvs).getD (Json.obj []) with _ | b | n | s | xs | d <;>
    rw [hdo] at h <;> simp only [] at h
  case obj =>
    split at h
    · rcases hpi : pyInt ((List.lookup "uts" d).getD Json.null) with e | n <;>
        rw [hpi] at h <;> simp only [pySetItem] at h
      · cases h
      · exact ⟨Json.num n, by injection h with h; rw [← h]⟩
    · simp only [pySetItem] at h
      exact ⟨Json.null, by injection h with h; rw [← h]⟩
  all_goals cases h

/-- The non-badge success path of the `try` body: a body whose
`recenttracks.track` is a nonempty list and whose first track normalizes
successfully yields `({'track': track}, status)`. -/
theorem tryBody_track (status : Nat) (m rkvs : List (String × Json))
    (t0 : Json) (rest : List Json) (fmt : Option String) (track : Json)
    (h1 : List.lookup "recenttracks" m = some (Json.obj rkvs))
    (h2 : List.lookup "track" rkvs = some (Json.arr (t0 :: rest)))
    (h3 : addDateUts t0 = .ok track)
    (hf : fmt ≠ some "shields.io") :
    tryBody status (Json.obj m) fmt = .ok (Json.obj [("track", track)], status) := by
  simp [tryBody, pyGet, pyContains, pyIndex, pyTruthy, h1, h2, h3, hf, List.get?]

/-- Every `.ok` result of the `try` body is a JSON object with a status. -/
theorem tryBody_ok_obj (status : Nat) (body : Json) (fmt : Option String)
    (r : Json × Nat) (h : tryBody status body fmt = .ok r) :
    ∃ fields st, r = (Json.obj fields, st) := by
  unfold tryBody at h
  iterate 15 (all_goals try split at h)
  all_goals try cases h
  all_goals exact ⟨_, _, rfl⟩

/-- C1: with the API key configuration absent (`LASTFM_API_KEY` unset) or
empty, the latest-song handler returns HTTP 500 with body
`{"message": "INTERNAL_ERROR"}` and makes no outbound HTTP call, whatever
the upstream would have answered and whatever the format flag is. -/
theorem C1_missing_api_key (k : Option String) (u : Except Unit (Nat × Json))
    (f : Option String) (h : k = none ∨ k = some "") :
    route k u f = ((jmsg "INTERNAL_ERROR", 500), false) := by
  rcases h with h | h <;> subst h <;> rfl

theorem C1_missing_api_key_witness :
    route none (.ok (200, Json.obj [])) none
      = ((jmsg "INTERNAL_ERROR", 500), false) :=
  C1_missing_api_key none (.ok (200, Json.obj [])) none (Or.inl rfl)

/-- C2: when the API key is set and the upstream body is a JSON object in
which the `recenttracks.track` sequence is absent (no `recenttracks` key,
or a `recenttracks` object without a `track` key) or is the empty list,
the handler returns HTTP 200 with `{"message": "NO_TRACKS_FOUND"}`, not
HTTP 500 INTERNAL_ERROR. -/
theorem C2_no_tracks_found (k : Option String) (status : Nat)
    (m : List (String × Json)) (f : Option String)
    (hk : keyTruthy k = true)
    (h : List.lookup "recenttracks" m = none ∨
         ∃ rkvs, List.lookup "recenttracks" m = some (Json.obj rkvs) ∧
           (List.lookup "track" rkvs = none ∨
            List.lookup "track" rkvs = some (Json.arr []))) :
    route k (.ok (status, Json.obj m)) f = ((jmsg "NO_TRACKS_FOUND", 200), true) := by
  have ht : tryBody status (Json.obj m) f = .ok (jmsg "NO_TRACKS_FOUND", 200) := by
    rcases h with h | ⟨rkvs, h1, h2 | h2⟩
    · simp [tryBody, pyGet, pyContains, h]
    · simp [tryBody, pyGet, pyContains, h1, h2]
    · simp [tryBody, pyGet, pyContains, pyIndex, pyTruthy, h1, h2]
  simp [route, hk, ht]

theorem C2_no_tracks_found_witness :
    route (some "key") (.ok (200, Json.obj [])) none
      = ((jmsg "NO_TRACKS_FOUND", 200), true) :=
  C2_no_tracks_found (some "key") 200 [] none rfl (Or.inl rfl)

/-- C3, counterexample: the claim maps every "response of unexpected shape,
e.g. a JSON object that does not contain the recenttracks.track sequence,
such as an upstream error payload" to HTTP 500 INTERNAL_ERROR; on the
upstream error payload `{"error": 6, "message": "User not found"}` the
handler in fact returns HTTP 200 NO_TRACKS_FOUND. -/
theorem C3_unexpected_shape_cex :
    route (some "key")
        (.ok (200, Json.obj [("error", Json.num 6),
                             ("message", Json.str "User not found")])) none
      = ((jmsg "NO_TRACKS_FOUND", 200), true) ∧
    ((jmsg "NO_TRACKS_FOUND", 200) : Json × Nat) ≠ (jmsg "INTERNAL_ERROR", 500) :=
  ⟨rfl, fun h => by injection h with h1 h2; exact absurd h2 (by decide)⟩

/-- C3, amended: every failure of the external call that raises — network
error, timeout, malformed JSON, or a decoded body that is not a JSON
object — is mapped uniformly to HTTP 500 `{"message": "INTERNAL_ERROR"}`,
with no distinction between causes; a well-formed JSON object that merely
lacks the `recenttracks.track` sequence instead yields HTTP 200
NO_TRACKS_FOUND. -/
theorem C3_uniform_internal_error (k : Option String)
    (u : Except Unit (Nat × Json)) (f : Option String)
    (hk : keyTruthy k = true)
    (h : u = .error () ∨ ∃ s b, u = .ok (s, b) ∧ isObj b = false) :
    route k u f = ((jmsg "INTERNAL_ERROR", 500), true) := by
  rcases h with h | ⟨s, b, hu, hb⟩
  · subst h
    simp [route, hk]
  · subst hu
    cases b <;> simp_all [route, tryBody, pyGet, isObj, hk]

theorem C3_uniform_internal_error_witness :
    route (some "key") (.error ()) none = ((jmsg "INTERNAL_ERROR", 500), true) :=
  C3_uniform_internal_error (some "key") (.error ()) none rfl (Or.inl rfl)

/-- C8: the health handler returns HTTP 200 with the fixed body
`{"message": "type shit"}` — a JSON object of the shape
`{"message": <status string>}` — on every invocation; it takes no input
and, being a total constant, cannot fail. -/
theorem C8_healthcheck :
    healthcheck_route
      = ((Json.obj [("message", Json.str "type shit")], 200),
         ["Healthcheck was requested"]) ∧
    ∃ s, healthcheck_route.1 = (jmsg s, 200) :=
  ⟨rfl, "type shit", rfl⟩

/-- C4, counterexample: the claim says `date_uts` equals the integer
conversion of `date.uts` whenever `date.uts` is present; for a track whose
`date.uts` is present with the (falsy) value `0`, the code sets `date_uts`
to `None`, not to `int(0) = 0` — the code branches on truthiness of the
raw value, not on its presence. -/
theorem C4_date_uts_cex :
    addDateUts (Json.obj [("date", Json.obj [("uts", Json.num 0)])])
      = .ok (Json.obj [("date", Json.obj [("uts", Json.num 0)]),
                       ("date_uts", Json.null)]) ∧
    Json.null ≠ Json.num 0 :=
  ⟨rfl, fun h => Json.noConfusion h⟩

/-- C4, amended: the normalized track's `date_uts` equals the integer
conversion of `date.uts` when `date.uts` is present AND truthy (in
particular the string `"1700000000"` yields the integer `1700000000`),
and is null when the track has no `date` field (as well as when `date.uts`
is present but falsy). -/
theorem C4_date_uts :
    (∀ (kvs d : List (String × Json)) (u : Json) (n : Int),
        List.lookup "date" kvs = some (Json.obj d) →
        List.lookup "uts" d = some u →
        pyTruthy u = true →
        pyInt u = .ok n →
        ∃ kvs', addDateUts (Json.obj kvs) = .ok (Json.obj kvs') ∧
          List.lookup "date_uts" kvs' = some (Json.num n)) ∧
    (∀ kvs : List (String × Json),
        List.lookup "date" kvs = none →
        ∃ kvs', addDateUts (Json.obj kvs) = .ok (Json.obj kvs') ∧
          List.lookup "date_uts" kvs' = some Json.null) := by
  constructor
  · intro kvs d u n h1 h2 h3 h4
    refine ⟨setKey kvs "date_uts" (Json.num n), ?_, lookup_setKey_self ..⟩
    simp [addDateUts, pyGet, h1, h2, h3, h4, pySetItem]
  · intro kvs h1
    refine ⟨setKey kvs "date_uts" Json.null, ?_, lookup_setKey_self ..⟩
    simp [addDateUts, pyGet, h1, List.lookup, pyTruthy, pySetItem]

theorem C4_date_uts_witness :
    (∃ kvs', addDateUts (Json.obj [("date", Json.obj [("uts", Json.str "1700000000")])])
        = .ok (Json.obj kvs') ∧
      List.lookup "date_uts" kvs' = some (Json.num 1700000000)) ∧
    (∃ kvs', addDateUts (Json.obj [("name", Json.str "Song")])
        = .ok (Json.obj kvs') ∧
      List.lookup "date_uts" kvs' = some Json.null) :=
  ⟨C4_date_uts.1 [("date", Json.obj [("uts", Json.str "1700000000")])]
      [("uts", Json.str "1700000000")] (Json.str "1700000000") 1700000000
      rfl rfl rfl (by rfl),
   C4_date_uts.2 [("name", Json.str "Song")] rfl⟩

/-- C5: with the API key set, format=shields.io and an upstream first track
carrying a `name` string and an `artist` object with a `#text` string, the
handler returns HTTP 200 with exactly
`{"schemaVersion": 1, "label": "Last.FM Last Played Song",
"message": "<name> - <artist text>"}` — for every name, artist text,
upstream status and tail of the track list. -/
theorem C5_shields_badge (k : Option String) (status : Nat)
    (trackName band : String) (rest : List Json)
    (hk : keyTruthy k = true) :
    route k
        (.ok (status, Json.obj [("recenttracks", Json.obj [("track",
          Json.arr (Json.obj [("name", Json.str trackName),
                              ("artist", Json.obj [("#text", Json.str band)])]
            :: rest))])]))
        (some "shields.io")
      = ((Json.obj [("schemaVersion", Json.num 1),
                    ("label", Json.str "Last.FM Last Played Song"),
                    ("message", Json.str (trackName ++ " - " ++ band))], 200),
         true) := by
  unfold route
  rw [hk]
  rfl

theorem C5_shields_badge_witness :
    route (some "key")
        (.ok (200, Json.obj [("recenttracks", Json.obj [("track",
          Json.arr [Json.obj [("name", Json.str "Song"),
                              ("artist", Json.obj [("#text", Json.str "Band")])]])])]))
        (some "shields.io")
      = ((Json.obj [("schemaVersion", Json.num 1),
                    ("label", Json.str "Last.FM Last Played Song"),
                    ("message", Json.str ("Song" ++ " - " ++ "Band"))], 200),
         true) :=
  C5_shields_badge (some "key") 200 "Song" "Band" [] rfl

/-- C6: with the API key set, a format flag other than shields.io and an
upstream response carrying a nonempty track list, the handler returns
`{"track": <normalized track>}` with the upstream's reported HTTP status
code — for every upstream status, not a fixed 200. -/
theorem C6_status_passthrough (k : Option String) (status : Nat)
    (f : Option String) (hk : keyTruthy k = true)
    (hf : f ≠ some "shields.io") :
    route k (.ok (status, exampleBody)) f
      = ((Json.obj [("track", exampleTrackNorm)], status), true) := by
  have ht := tryBody_track status
    [("recenttracks", Json.obj [("track", Json.arr [exampleTrack])])]
    [("track", Json.arr [exampleTrack])] exampleTrack [] f exampleTrackNorm
    rfl rfl (by rfl) hf
  simp [route, hk, exampleBody, ht]

theorem C6_status_passthrough_witness :
    route (some "key") (.ok (503, exampleBody)) none
      = ((Json.obj [("track", exampleTrackNorm)], 503), true) :=
  C6_status_passthrough (some "key") 503 none rfl (by simp)

/-- C7: on every input the latest-song handler produces a well-formed JSON
object response (never an unstructured fault — `route` is total), and
whenever the body of the `try` block raises — during parsing,
normalization or response construction — the response is HTTP 500
`{"message": "INTERNAL_ERROR"}`. -/
theorem C7_structured_responses (k : Option String)
    (u : Except Unit (Nat × Json)) (f : Option String) :
    (∃ fields st, (route k u f).1 = (Json.obj fields, st)) ∧
    (∀ s b, keyTruthy k = true → u = .ok (s, b) → tryBody s b f = .error () →
      route k u f = ((jmsg "INTERNAL_ERROR", 500), true)) := by
  constructor
  · cases hkt : keyTruthy k
    · exact ⟨[("message", Json.str "INTERNAL_ERROR")], 500, by simp [route, hkt, jmsg]⟩
    · cases u with
      | error e =>
        exact ⟨[("message", Json.str "INTERNAL_ERROR")], 500, by simp [route, hkt, jmsg]⟩
      | ok p =>
        obtain ⟨s, b⟩ := p
        cases htb : tryBody s b f with
        | error e =>
          exact ⟨[("message", Json.str "INTERNAL_ERROR")], 500,
            by simp [route, hkt, htb, jmsg]⟩
        | ok r =>
          obtain ⟨fl, st, hr⟩ := tryBody_ok_obj s b f r htb
          exact ⟨fl, st, by simp [route, hkt, htb, hr]⟩
  · intro s b hk hu htb
    subst hu
    simp [route, hk, htb]

theorem C7_structured_responses_witness :
    route (some "key") (.ok (200, Json.str "not json object")) none
      = ((jmsg "INTERNAL_ERROR", 500), true) :=
  (C7_structured_responses (some "key") (.ok (200, Json.str "not json object"))
      none).2 200 (Json.str "not json object") rfl rfl (by rfl)

/-- C9: on the non-badge success path the object returned under the
`"track"` key is the upstream first track with exactly one modification:
the `date_uts` key is added (or overwritten); the value of every other key
is unchanged. -/
theorem C9_track_frame (k : Option String) (status : Nat)
    (m rkvs kvs : List (String × Json)) (rest : List Json)
    (f : Option String) (track : Json)
    (hk : keyTruthy k = true) (hf : f ≠ some "shields.io")
    (h1 : List.lookup "recenttracks" m = some (Json.obj rkvs))
    (h2 : List.lookup "track" rkvs = some (Json.arr (Json.obj kvs :: rest)))
    (h3 : addDateUts (Json.obj kvs) = .ok track) :
    route k (.ok (status, Json.obj m)) f
      = ((Json.obj [("track", track)], status), true) ∧
    ∃ kvs', track = Json.obj kvs' ∧
      (∀ key, key ≠ "date_uts" →
        List.lookup key kvs' = List.lookup key kvs) ∧
      (List.lookup "date_uts" kvs').isSome = true := by
  constructor
  · have ht := tryBody_track status m rkvs (Json.obj kvs) rest f track h1 h2 h3 hf
    simp [route, hk, ht]
  · obtain ⟨v, hv⟩ := addDateUts_obj kvs track h3
    subst hv
    refine ⟨setKey kvs "date_uts" v, rfl, ?_, ?_⟩
    · intro key hkey
      exact lookup_setKey_ne kvs "date_uts" v key hkey
    · rw [lookup_setKey_self]
      rfl

theorem C9_track_frame_witness :
    route (some "key") (.ok (200, exampleBody)) none
      = ((Json.obj [("track", exampleTrackNorm)], 200), true) ∧
    ∃ kvs', exampleTrackNorm = Json.obj kvs' ∧
      (∀ key, key ≠ "date_uts" →
        List.lookup key kvs'
          = List.lookup key
              [("name", Json.str "Song"),
               ("artist", Json.obj [("#text", Json.str "Band")]),
               ("date", Json.obj [("uts", Json.str "1700000000")])]) ∧
      (List.lookup "date_uts" kvs').isSome = true :=
  C9_track_frame (some "key") 200
    [("recenttracks", Json.obj [("track", Json.arr [exampleTrack])])]
    [("track", Json.arr [exampleTrack])]
    [("name", Json.str "Song"),
     ("artist", Json.obj [("#text", Json.str "Band")]),
     ("date", Json.obj [("uts", Json.str "1700000000")])]
    [] none exampleTrackNorm rfl (by simp) rfl rfl (by rfl)

/-- C10: a track whose `date` field is present as an object but whose
`uts` subfield is missing or is the empty string normalizes with
`date_uts = null` and raises nothing; on the non-badge path the handler
then returns the track response with the upstream status, not the
INTERNAL_ERROR branch. -/
theorem C10_falsy_uts (kvs d : List (String × Json))
    (h1 : List.lookup "date" kvs = some (Json.obj d))
    (h2 : List.lookup "uts" d = none ∨
          List.lookup "uts" d = some (Json.str "")) :
    ∃ kvs', addDateUts (Json.obj kvs) = .ok (Json.obj kvs') ∧
      List.lookup "date_uts" kvs' = some Json.null ∧
      ∀ status, route (some "key")
          (.ok (status, Json.obj [("recenttracks",
            Json.obj [("track", Json.arr [Json.obj kvs])])])) none
        = ((Json.obj [("track", Json.obj kvs')], status), true) := by
  have ha : addDateUts (Json.obj kvs)
      = .ok (Json.obj (setKey kvs "date_uts" Json.null)) := by
    rcases h2 with h2 | h2 <;>
      simp [addDateUts, pyGet, h1, h2, pyTruthy, pySetItem]
  refine ⟨setKey kvs "date_uts" Json.null, ha, lookup_setKey_self .., ?_⟩
  intro status
  have ht := tryBody_track status
    [("recenttracks", Json.obj [("track", Json.arr [Json.obj kvs])])]
    [("track", Json.arr [Json.obj kvs])] (Json.obj kvs) [] none
    (Json.obj (setKey kvs "date_uts" Json.null)) rfl rfl ha (by simp)
  simp [route, ht]
  rfl

theorem C10_falsy_uts_witness :
    ∃ kvs', addDateUts (Json.obj [("date", Json.obj [("uts", Json.str "")])])
        = .ok (Json.obj kvs') ∧
      List.lookup "date_uts" kvs' = some Json.null ∧
      ∀ status, route (some "key")
          (.ok (status, Json.obj [("recenttracks",
            Json.obj [("track",
              Json.arr [Json.obj [("date", Json.obj [("uts", Json.str "")])]])])]))
          none
        = ((Json.obj [("track", Json.obj kvs')], status), true) :=
  C10_falsy_uts [("date", Json.obj [("uts", Json.str "")])]
    [("uts", Json.str "")] rfl (Or.inr rfl)

end LastPlayed
